import Mathlib

/-!
The `Resize` control of the image editor

A shallow embedding of the three event handlers of
`packages/react-filerobot-image-editor/src/components/tools/Resize/Resize.jsx`
(`changeResize`, `toggleRatioLock`, `resetResize`) and of the expression that
chooses the ratio-lock icon, followed by the properties proved about them.

Conventions of the embedding

* A JavaScript number is the rational it denotes (every finite double is one, and
  `-0` is identified with `0`, which `===` and truthiness do not tell apart).  The
  operators `*` and `/` are the IEEE 754 binary64 ones: the exact product or
  quotient, rounded to the nearest double, a tie going to the even significand
  (`toDouble`).  `NaN` and the infinities are outside the model, so a division by
  zero and an overflow are; the theorems about computed values assume positive
  dimensions.
* A plain object is a record of optional keys (`none`: the key is absent, and
  reading it yields `undefined`).
* A handler returns the list of effects it performs, in program order: calls of
  the `onChange` prop and actions passed to `dispatch`.
* The helpers imported by the component (`restrictNumber`,
  `getSizeAfterRotation`, `getZoomFitFactor`) are not part of the component and
  are taken as parameters (`Utils`).
-/

namespace Resize

/-! ## JavaScript values and operators -/

/-- The JavaScript values that occur in the fields read by the handlers. -/
inductive JSVal where
  | undefined : JSVal
  | null : JSVal
  | bool (b : Bool) : JSVal
  | num (q : ℚ) : JSVal
  deriving DecidableEq

namespace JSVal

/-- Truthiness (`ToBoolean`): `undefined`, `null`, `false` and `0` are falsy. -/
def truthy : JSVal → Bool
  | undefined => false
  | null => false
  | bool b => b
  | num q => decide (q ≠ 0)

/-- The operator `!a`. -/
def lnot (a : JSVal) : JSVal := bool (!a.truthy)

/-- The operator `a || b`. -/
def lor (a b : JSVal) : JSVal := if a.truthy then a else b

/-- The operator `a ?? b`. -/
def nullish (a b : JSVal) : JSVal :=
  match a with
  | undefined => b
  | null => b
  | _ => a

/-- The operator `a === b`. -/
def strictEq (a b : JSVal) : Bool := decide (a = b)

end JSVal

/-- The function `Math.round`: the nearest integer, a tie going to the larger one.  On a
double the result is exact. -/
def mathRound (x : ℚ) : ℤ := ⌊x + 1 / 2⌋

/-! ## Double-precision arithmetic -/

/-- Rounding to the nearest integer, a tie going to the even one. -/
def roundHalfEven (x : ℚ) : ℤ :=
  if x - ⌊x⌋ < 1 / 2 then ⌊x⌋
  else if 1 / 2 < x - ⌊x⌋ then ⌊x⌋ + 1
  else if ⌊x⌋ % 2 = 0 then ⌊x⌋ else ⌊x⌋ + 1

/-- The binary exponent that fixes the spacing of the doubles around `x`: the `e` with
`2 ^ e ≤ |x| < 2 ^ (e + 1)`, and `-1022` throughout the subnormal range. -/
def binade (x : ℚ) : ℤ := max (Int.log 2 |x|) (-1022)

/-- The spacing of the doubles around `x` (53 significant bits). -/
def ulp (x : ℚ) : ℚ := 2 ^ (binade x - 52)

/-- The double nearest to `x`, a tie going to the even significand. -/
def toDouble (x : ℚ) : ℚ := roundHalfEven (x / ulp x) * ulp x

/-- The operator `a * b` on numbers. -/
def fmul (a b : ℚ) : ℚ := toDouble (a * b)

/-- The operator `a / b` on numbers. -/
def fdiv (a b : ℚ) : ℚ := toDouble (a / b)

/-- The magnitudes at which an operation neither underflows nor overflows: from the
least normal double `2 ^ -1022` to the greatest double `2 ^ 1024 - 2 ^ 971`. -/
def normalRange (x : ℚ) : Prop :=
  (2 : ℚ) ^ (-1022 : ℤ) ≤ |x| ∧ |x| ≤ 2 ^ 1024 - 2 ^ 971

instance (x : ℚ) : Decidable (normalRange x) := by
  unfold normalRange
  infer_instance

/-! ## Objects, store, props -/

/-- The two values of `e.target.name`: the handler is attached to the inputs named
`width` and `height` only. -/
inductive DimName where
  | width : DimName
  | height : DimName
  deriving DecidableEq

/-- A plain object with the keys the component reads or writes. -/
structure Obj where
  width : Option JSVal
  height : Option JSVal
  ratioUnlocked : Option JSVal
  manualChangeDisabled : Option JSVal
  deriving DecidableEq

namespace Obj

/-- The object literal with no key. -/
def empty : Obj := ⟨none, none, none, none⟩

/-- Reading a key: an absent key reads as `undefined`. -/
def read (k : Option JSVal) : JSVal := k.getD JSVal.undefined

/-- The key of a dimension name, as stored in the object. -/
def key (o : Obj) : DimName → Option JSVal
  | DimName.width => o.width
  | DimName.height => o.height

/-- The property read `o[name]` for a dimension name. -/
def get (o : Obj) (n : DimName) : JSVal := read (o.key n)

/-- The assignment `o[name] = v` for a dimension name. -/
def set (o : Obj) (n : DimName) (v : JSVal) : Obj :=
  match n with
  | DimName.width => ⟨some v, o.height, o.ratioUnlocked, o.manualChangeDisabled⟩
  | DimName.height => ⟨o.width, some v, o.ratioUnlocked, o.manualChangeDisabled⟩

/-- One key of the object spread: a key of the payload wins when present. -/
def spreadKey (old new : Option JSVal) : Option JSVal :=
  match new with
  | some v => some v
  | none => old

end Obj

/-- The object `originalImage`, of numeric width and height. -/
structure ImageSize where
  width : ℚ
  height : ℚ
  deriving DecidableEq

/-- The part of the store that `useStore()` hands to the component. -/
structure Store where
  originalImage : ImageSize
  resize : Obj
  shownImageDimensions : Obj
  crop : Obj
  /-- The key `adjustments.rotation`; an absent one takes the default `0`. -/
  rotation : Option ℚ
  deriving DecidableEq

/-- The props read by the handlers. -/
structure Props where
  /-- Whether `typeof onChange === 'function'`. -/
  onChange : Bool
  currentSize : Obj
  deriving DecidableEq

/-- The object `e.target` of a change event. -/
structure Target where
  name : DimName
  value : String
  deriving DecidableEq

/-- The helpers imported by the component. -/
structure Utils where
  restrictNumber : String → ℚ → ℚ
  getSizeAfterRotation : ℚ → ℚ → ℚ → ImageSize
  getZoomFitFactor : Obj → Obj → ℚ

/-- The two actions the component dispatches. -/
inductive Action where
  | SET_RESIZE (payload : Obj) : Action
  | ZOOM_CANVAS (factor : ℚ) : Action
  deriving DecidableEq

/-- What a handler does to the outside: a call of the `onChange` prop or a `dispatch`. -/
inductive Effect where
  | onChange (arg : Obj) : Effect
  | dispatch (a : Action) : Effect
  deriving DecidableEq

/-- Modelled from the spec: the reducer of `SET_RESIZE` is not in the component; the
spec says it "merges payload into resize state", which is the object spread of the
stored resize object and the payload. -/
def mergeResize (resize payload : Obj) : Obj :=
  ⟨Obj.spreadKey resize.width payload.width,
   Obj.spreadKey resize.height payload.height,
   Obj.spreadKey resize.ratioUnlocked payload.ratioUnlocked,
   Obj.spreadKey resize.manualChangeDisabled payload.manualChangeDisabled⟩

/-! ## The handlers -/

/-- The name of the other dimension (`secondDimensionName`). -/
def secondDimensionName (name : DimName) : DimName :=
  if name = DimName.height then DimName.width else DimName.height

/-- The value of `isRatioUnlocked` in `changeResize`. -/
def isRatioUnlocked (p : Props) (s : Store) : JSVal :=
  JSVal.nullish (Obj.read p.currentSize.ratioUnlocked) (Obj.read s.resize.ratioUnlocked)

/-- The value of `originalImgSizeAfterRotation` in `changeResize`. -/
def originalImgSizeAfterRotation (u : Utils) (s : Store) : ImageSize :=
  u.getSizeAfterRotation s.originalImage.width s.originalImage.height (s.rotation.getD 0)

/-- The object `newResize` as it stands after the ratio branch of `changeResize`. -/
def newResize (u : Utils) (p : Props) (s : Store) (e : Target) : Obj :=
  let size := originalImgSizeAfterRotation u s
  let v := u.restrictNumber e.value 1
  let first := Obj.empty.set e.name (JSVal.num v)
  let isHeight := decide (e.name = DimName.height)
  if !(isRatioUnlocked p s).truthy then
    let originalImgRatio := fdiv size.width size.height
    first.set (secondDimensionName e.name)
      (if isHeight then JSVal.num (mathRound (fmul v originalImgRatio))
       else JSVal.num (mathRound (fdiv v originalImgRatio)))
  else first

/-- The value of `dimensUsedInFit`: `(crop.width && crop.height && crop) ||
shownImageDimensions`, the object `crop` being truthy. -/
def dimensUsedInFit (s : Store) : Obj :=
  if (Obj.read s.crop.width).truthy && (Obj.read s.crop.height).truthy then s.crop
  else s.shownImageDimensions

/-- The no-op test of `changeResize`. -/
def sameAsStored (u : Utils) (p : Props) (s : Store) (e : Target) : Bool :=
  JSVal.strictEq ((newResize u p s e).get e.name) (s.resize.get e.name) &&
    JSVal.strictEq ((newResize u p s e).get (secondDimensionName e.name))
      (s.resize.get (secondDimensionName e.name))

/-- The handler `changeResize`. -/
def changeResize (u : Utils) (p : Props) (s : Store) (e : Target) : List Effect :=
  if sameAsStored u p s e then []
  else if p.onChange then [Effect.onChange (newResize u p s e)]
  else
    Effect.dispatch (Action.SET_RESIZE (newResize u p s e)) ::
      (if !(Obj.read s.resize.width).truthy || !(Obj.read s.resize.height).truthy then
        [Effect.dispatch
          (Action.ZOOM_CANVAS (u.getZoomFitFactor (dimensUsedInFit s) (newResize u p s e)))]
       else [])

/-- The handler `toggleRatioLock`. -/
def toggleRatioLock (p : Props) (s : Store) : List Effect :=
  if p.onChange then
    [Effect.onChange
      ⟨none, none, some (JSVal.lnot (Obj.read p.currentSize.ratioUnlocked)), none⟩]
  else
    [Effect.dispatch (Action.SET_RESIZE
      ⟨none, none, some (JSVal.lnot (Obj.read s.resize.ratioUnlocked)), none⟩)]

/-- The handler `resetResize`; it reads none of the props. -/
def resetResize (u : Utils) (_p : Props) (s : Store) : List Effect :=
  [Effect.dispatch (Action.SET_RESIZE
      ⟨some JSVal.null, some JSVal.null, some (JSVal.bool false), none⟩),
   Effect.dispatch (Action.ZOOM_CANVAS
      (u.getZoomFitFactor (dimensUsedInFit s) (dimensUsedInFit s)))]

/-- The condition under which the component renders the unlocked icon. -/
def showsUnlockIcon (p : Props) (s : Store) : Bool :=
  (JSVal.lor (Obj.read p.currentSize.ratioUnlocked) (Obj.read s.resize.ratioUnlocked)).truthy

/-- The actions among a list of effects, in order. -/
def dispatched : List Effect → List Action
  | [] => []
  | Effect.dispatch a :: r => a :: dispatched r
  | Effect.onChange _ :: r => dispatched r

/-- The arguments of the `onChange` calls among a list of effects, in order. -/
def onChangeCalls : List Effect → List Obj
  | [] => []
  | Effect.onChange o :: r => o :: onChangeCalls r
  | Effect.dispatch _ :: r => onChangeCalls r

/-! ## Stand-ins for the helpers, used to evaluate the handlers on examples -/

/-- A right-angle stand-in for `getSizeAfterRotation`: the sides swap at 90 and 270. -/
def rightAngleSize (w h r : ℚ) : ImageSize :=
  if r = 90 ∨ r = 270 then ⟨h, w⟩ else ⟨w, h⟩

/-- A stand-in for `restrictNumber` on the inputs of the examples: the entered number,
raised to the minimum. -/
def exampleRestrict (value : String) (min : ℚ) : ℚ :=
  max min (if value = "100" then 100 else if value = "101" then 101
    else if value = "192" then 192 else if value = "1125" then 1125
    else if value = "49" then 49 else 0)

/-- A stand-in for `getZoomFitFactor` that shows which objects it was given: the width
of the first one, plus a thousand times the width of the second. -/
def exampleFit (a b : Obj) : ℚ :=
  match Obj.read a.width, Obj.read b.width with
  | JSVal.num x, JSVal.num y => x + 1000 * y
  | JSVal.num x, _ => x
  | _, _ => 0

/-- The stand-in helpers. -/
def exampleUtils : Utils := ⟨exampleRestrict, rightAngleSize, exampleFit⟩

/-- Props of the component used on its own: no callback, `currentSize` defaulted to the
empty object. -/
def plainProps : Props := ⟨false, Obj.empty⟩

/-- An object with a numeric width and height only. -/
def sizeObj (w h : ℚ) : Obj := ⟨some (JSVal.num w), some (JSVal.num h), none, none⟩

/-- A store over a 400 by 200 image, nothing resized yet, ratio locked, no crop. -/
def landscapeStore (rotation : Option ℚ) : Store :=
  ⟨⟨400, 200⟩, ⟨some JSVal.null, some JSVal.null, some (JSVal.bool false), some (JSVal.bool false)⟩,
    sizeObj 800 400, sizeObj 0 0, rotation⟩

/-- A store over a 400 by 100 image, nothing resized yet, ratio locked, no crop. -/
def wideStore : Store :=
  ⟨⟨400, 100⟩, ⟨some JSVal.null, some JSVal.null, some (JSVal.bool false), some (JSVal.bool false)⟩,
    sizeObj 800 200, sizeObj 0 0, none⟩

/-- A store over a 400 by 200 image whose resize state holds the given width, height 50
and an unlocked ratio. -/
def unlockedStore (w : ℚ) : Store :=
  ⟨⟨400, 200⟩, ⟨some (JSVal.num w), some (JSVal.num 50), some (JSVal.bool true),
      some (JSVal.bool false)⟩,
    sizeObj 800 400, sizeObj 0 0, none⟩

/-- A store over an image of the given size, nothing resized yet, ratio locked, no
crop. -/
def lockedStore (w h : ℚ) : Store :=
  ⟨⟨w, h⟩, ⟨some JSVal.null, some JSVal.null, some (JSVal.bool false), some (JSVal.bool false)⟩,
    sizeObj 800 400, sizeObj 0 0, none⟩

/-- A store over a 400 by 200 image with a 300 by 150 crop. -/
def croppedStore : Store :=
  ⟨⟨400, 200⟩, ⟨some (JSVal.num 100), some (JSVal.num 50), some (JSVal.bool false),
      some (JSVal.bool false)⟩,
    sizeObj 800 400, sizeObj 300 150, none⟩

/-- Props of the component driven by a parent: a callback, and a `currentSize` whose
`ratioUnlocked` is `false`. -/
def lockedOverrideProps : Props := ⟨true, ⟨none, none, some (JSVal.bool false), none⟩⟩

/-- Whether a value is a negative number. -/
def JSVal.isNegative : JSVal → Bool
  | JSVal.num q => decide (q < 0)
  | _ => false

/-- The comparison `a > 0`. -/
def JSVal.gtZero : JSVal → Bool
  | JSVal.undefined => false
  | JSVal.null => false
  | JSVal.bool b => b
  | JSVal.num q => decide (0 < q)

/-- The choice of the fitted dimensions in the words of the specification: the crop
object when `crop.width > 0` and `crop.height > 0`, the shown image dimensions in every
other case. -/
def specDimensUsedInFit (s : Store) : Obj :=
  if (Obj.read s.crop.width).gtZero && (Obj.read s.crop.height).gtZero then s.crop
  else s.shownImageDimensions

/-! ## Auxiliary facts -/

theorem mathRound_eq_iff (x : ℚ) (z : ℤ) :
    mathRound x = z ↔ (z : ℚ) ≤ x + 1 / 2 ∧ x + 1 / 2 < z + 1 := by
  unfold mathRound
  exact Int.floor_eq_iff

theorem mathRound_le (x : ℚ) : (mathRound x : ℚ) ≤ x + 1 / 2 :=
  Int.floor_le _

theorem lt_mathRound (x : ℚ) : x - 1 / 2 < (mathRound x : ℚ) := by
  have h := Int.lt_floor_add_one (x + 1 / 2)
  unfold mathRound
  linarith

theorem abs_mathRound_sub_le (x : ℚ) : |(mathRound x : ℚ) - x| ≤ 1 / 2 := by
  have h1 := mathRound_le x
  have h2 := lt_mathRound x
  rw [abs_le]
  constructor <;> linarith

theorem abs_roundHalfEven_sub_le (x : ℚ) : |(roundHalfEven x : ℚ) - x| ≤ 1 / 2 := by
  have h1 := Int.floor_le x
  have h2 := Int.lt_floor_add_one x
  unfold roundHalfEven
  rw [abs_le]
  split_ifs <;> push_cast <;> constructor <;> linarith

theorem roundHalfEven_eq_of_abs_lt (x : ℚ) (n : ℤ) (h : |x - n| < 1 / 2) :
    roundHalfEven x = n := by
  have hb := abs_roundHalfEven_sub_le x
  rw [abs_lt] at h
  rw [abs_le] at hb
  have h1 : ((roundHalfEven x - n : ℤ) : ℚ) < 1 := by push_cast; linarith
  have h2 : (-1 : ℚ) < ((roundHalfEven x - n : ℤ) : ℚ) := by push_cast; linarith
  have h3 : roundHalfEven x - n < 1 := by exact_mod_cast h1
  have h4 : -1 < roundHalfEven x - n := by exact_mod_cast h2
  omega

theorem binade_eq (x : ℚ) (e : ℤ) (hmin : -1022 ≤ e) (h1 : (2 : ℚ) ^ e ≤ |x|)
    (h2 : |x| < (2 : ℚ) ^ (e + 1)) : binade x = e := by
  have hpos : 0 < |x| := lt_of_lt_of_le (by positivity) h1
  have a : e ≤ Int.log 2 |x| := (Int.zpow_le_iff_le_log (by norm_num) hpos).mp (by exact_mod_cast h1)
  have b : Int.log 2 |x| < e + 1 := (Int.lt_zpow_iff_log_lt (by norm_num) hpos).mp (by exact_mod_cast h2)
  unfold binade
  omega

theorem toDouble_eq (x : ℚ) (e n : ℤ) (hmin : -1022 ≤ e) (h1 : (2 : ℚ) ^ e ≤ |x|)
    (h2 : |x| < (2 : ℚ) ^ (e + 1)) (hn : |x / 2 ^ (e - 52) - n| < 1 / 2) :
    toDouble x = n * 2 ^ (e - 52) := by
  unfold toDouble ulp
  rw [binade_eq x e hmin h1 h2, roundHalfEven_eq_of_abs_lt _ n hn]

theorem abs_toDouble_sub_le (x : ℚ) (hx : (2 : ℚ) ^ (-1022 : ℤ) ≤ |x|) :
    |toDouble x - x| ≤ 2 ^ (-53 : ℤ) * |x| := by
  have hpos : 0 < |x| := lt_of_lt_of_le (by positivity) hx
  have a : -1022 ≤ Int.log 2 |x| :=
    (Int.zpow_le_iff_le_log (by norm_num) hpos).mp (by exact_mod_cast hx)
  have hb : binade x = Int.log 2 |x| := by unfold binade; omega
  have hle : (2 : ℚ) ^ Int.log 2 |x| ≤ |x| := by
    exact_mod_cast Int.zpow_log_le_self (b := 2) (by norm_num) hpos
  have hu : (0 : ℚ) < ulp x := by unfold ulp; positivity
  have hue : ulp x = 2 ^ (-52 : ℤ) * 2 ^ Int.log 2 |x| := by
    unfold ulp
    rw [hb, ← zpow_add₀ (by norm_num)]
    congr 1
    ring
  have key : toDouble x - x = ((roundHalfEven (x / ulp x) : ℚ) - x / ulp x) * ulp x := by
    unfold toDouble
    field_simp
  rw [key, abs_mul, abs_of_pos hu]
  have hr := abs_roundHalfEven_sub_le (x / ulp x)
  have h53 : (2 : ℚ) ^ (-53 : ℤ) = 1 / 2 * 2 ^ (-52 : ℤ) := by norm_num
  calc |(roundHalfEven (x / ulp x) : ℚ) - x / ulp x| * ulp x
      ≤ 1 / 2 * ulp x := by gcongr
    _ = 2 ^ (-53 : ℤ) * 2 ^ Int.log 2 |x| := by rw [hue, h53]; ring
    _ ≤ 2 ^ (-53 : ℤ) * |x| := by gcongr

/-- The value of a quotient, given its binade and its rounded significand. -/
theorem fdiv_eq (a b : ℚ) (e n : ℤ) (hmin : -1022 ≤ e) (h1 : (2 : ℚ) ^ e ≤ |a / b|)
    (h2 : |a / b| < (2 : ℚ) ^ (e + 1)) (hn : |a / b / 2 ^ (e - 52) - n| < 1 / 2) :
    fdiv a b = n * 2 ^ (e - 52) :=
  toDouble_eq (a / b) e n hmin h1 h2 hn

/-- The value of a product, given its binade and its rounded significand. -/
theorem fmul_eq (a b : ℚ) (e n : ℤ) (hmin : -1022 ≤ e) (h1 : (2 : ℚ) ^ e ≤ |a * b|)
    (h2 : |a * b| < (2 : ℚ) ^ (e + 1)) (hn : |a * b / 2 ^ (e - 52) - n| < 1 / 2) :
    fmul a b = n * 2 ^ (e - 52) :=
  toDouble_eq (a * b) e n hmin h1 h2 hn

theorem fdiv_400_200 : fdiv 400 200 = 2 := by
  rw [fdiv_eq 400 200 1 (2 ^ 52) (by norm_num)
    (by norm_num [abs_of_pos]) (by norm_num [abs_of_pos]) (by norm_num)]
  norm_num

theorem fdiv_200_400 : fdiv 200 400 = 1 / 2 := by
  rw [fdiv_eq 200 400 (-1) (2 ^ 52) (by norm_num)
    (by norm_num [abs_of_pos]) (by norm_num [abs_of_pos]) (by norm_num)]
  norm_num

theorem fdiv_400_100 : fdiv 400 100 = 4 := by
  rw [fdiv_eq 400 100 2 (2 ^ 52) (by norm_num)
    (by norm_num [abs_of_pos]) (by norm_num [abs_of_pos]) (by norm_num)]
  norm_num

theorem fdiv_100_2 : fdiv 100 2 = 50 := by
  rw [fdiv_eq 100 2 5 (50 * 2 ^ 47) (by norm_num)
    (by norm_num [abs_of_pos]) (by norm_num [abs_of_pos]) (by norm_num)]
  norm_num

theorem fdiv_101_2 : fdiv 101 2 = 101 / 2 := by
  rw [fdiv_eq 101 2 5 (101 * 2 ^ 46) (by norm_num) (by norm_num [abs_of_pos])
    (by norm_num [abs_of_pos]) (by norm_num)]
  norm_num

theorem fdiv_100_half : fdiv 100 (1 / 2) = 200 := by
  rw [fdiv_eq 100 (1 / 2) 7 (200 * 2 ^ 45) (by norm_num)
    (by norm_num [abs_of_pos]) (by norm_num [abs_of_pos]) (by norm_num)]
  norm_num

theorem fdiv_1_4 : fdiv 1 4 = 1 / 4 := by
  rw [fdiv_eq 1 4 (-2) (2 ^ 52) (by norm_num)
    (by norm_num [abs_of_pos]) (by norm_num [abs_of_pos]) (by norm_num)]
  norm_num

theorem fmul_100_2 : fmul 100 2 = 200 := by
  rw [fmul_eq 100 2 7 (200 * 2 ^ 45) (by norm_num)
    (by norm_num [abs_of_pos]) (by norm_num [abs_of_pos]) (by norm_num)]
  norm_num

/-- The update computed while the ratio is locked, for an edit of the width. -/
theorem newResize_width_locked (u : Utils) (p : Props) (s : Store) (value : String)
    (hlock : (isRatioUnlocked p s).truthy = false) :
    newResize u p s ⟨DimName.width, value⟩ =
      ⟨some (JSVal.num (u.restrictNumber value 1)),
       some (JSVal.num (mathRound (fdiv (u.restrictNumber value 1)
          (fdiv (originalImgSizeAfterRotation u s).width
            (originalImgSizeAfterRotation u s).height)))), none, none⟩ := by
  simp [newResize, hlock, secondDimensionName, Obj.set, Obj.empty]

/-- The update computed while the ratio is locked, for an edit of the height. -/
theorem newResize_height_locked (u : Utils) (p : Props) (s : Store) (value : String)
    (hlock : (isRatioUnlocked p s).truthy = false) :
    newResize u p s ⟨DimName.height, value⟩ =
      ⟨some (JSVal.num (mathRound (fmul (u.restrictNumber value 1)
          (fdiv (originalImgSizeAfterRotation u s).width
            (originalImgSizeAfterRotation u s).height)))),
       some (JSVal.num (u.restrictNumber value 1)), none, none⟩ := by
  simp [newResize, hlock, secondDimensionName, Obj.set, Obj.empty]

/-- The update computed while the ratio is unlocked holds the edited key only. -/
theorem newResize_unlocked (u : Utils) (p : Props) (s : Store) (e : Target)
    (hunl : (isRatioUnlocked p s).truthy = true) :
    newResize u p s e = Obj.empty.set e.name (JSVal.num (u.restrictNumber e.value 1)) := by
  simp [newResize, hunl]

/-- The four shapes of what `changeResize` emits: nothing, one `onChange` call with the
computed update, or `SET_RESIZE` with it, alone or followed by one `ZOOM_CANVAS`. -/
theorem changeResize_shape (u : Utils) (p : Props) (s : Store) (e : Target) :
    changeResize u p s e = [] ∨
    changeResize u p s e = [Effect.onChange (newResize u p s e)] ∨
    changeResize u p s e = [Effect.dispatch (Action.SET_RESIZE (newResize u p s e))] ∨
    changeResize u p s e =
      [Effect.dispatch (Action.SET_RESIZE (newResize u p s e)),
       Effect.dispatch (Action.ZOOM_CANVAS
         (u.getZoomFitFactor (dimensUsedInFit s) (newResize u p s e)))] := by
  unfold changeResize
  split
  · exact Or.inl rfl
  · split
    · exact Or.inr (Or.inl rfl)
    · split
      · exact Or.inr (Or.inr (Or.inr rfl))
      · exact Or.inr (Or.inr (Or.inl rfl))

/-- Every update emitted by `changeResize`, through `onChange` or through `SET_RESIZE`,
is the computed object `newResize`. -/
theorem changeResize_emits_newResize (u : Utils) (p : Props) (s : Store) (e : Target) :
    (∀ o ∈ onChangeCalls (changeResize u p s e), o = newResize u p s e) ∧
    (∀ o, Action.SET_RESIZE o ∈ dispatched (changeResize u p s e) → o = newResize u p s e) := by
  rcases changeResize_shape u p s e with h | h | h | h <;> rw [h] <;>
    simp [onChangeCalls, dispatched]


/-- The error of a quotient of normal range: at most `2 ^ -53` of its magnitude. -/
theorem abs_fdiv_sub_le (a b : ℚ) (h : normalRange (a / b)) :
    |fdiv a b - a / b| ≤ 2 ^ (-53 : ℤ) * |a / b| :=
  abs_toDouble_sub_le (a / b) h.1

/-- The error of a product of normal range: at most `2 ^ -53` of its magnitude. -/
theorem abs_fmul_sub_le (a b : ℚ) (h : normalRange (a * b)) :
    |fmul a b - a * b| ≤ 2 ^ (-53 : ℤ) * |a * b| :=
  abs_toDouble_sub_le (a * b) h.1

/-- Two relative errors of size `u`, one in the divisor and one in the quotient, leave
the quotient within `4 * u` of the exact one. -/
theorem quotient_error (u ρ r v q : ℚ) (hu0 : 0 ≤ u) (hu : u ≤ 1 / 4) (hρ : 0 < ρ)
    (hv : 0 < v) (hr : |r - ρ| ≤ u * ρ) (hq : |q - v / r| ≤ u * (v / r)) :
    |q - v / ρ| ≤ 4 * u * (v / ρ) := by
  rw [abs_le] at hr hq ⊢
  have hrpos : 0 < r := by nlinarith
  have ht : v / r * r = v := div_mul_cancel₀ v hrpos.ne.symm
  have hx : v / ρ * ρ = v := div_mul_cancel₀ v hρ.ne.symm
  have htpos : 0 < v / r := div_pos hv hrpos
  have hxpos : 0 < v / ρ := div_pos hv hρ
  generalize v / r = t at *
  generalize v / ρ = x at *
  have h1 : t * (1 - u) ≤ x := by
    have : t * (1 - u) * ρ ≤ x * ρ := by nlinarith
    exact le_of_mul_le_mul_right this hρ
  have h2 : x ≤ t * (1 + u) := by
    have : x * ρ ≤ t * (1 + u) * ρ := by nlinarith
    exact le_of_mul_le_mul_right this hρ
  constructor
  · nlinarith
  · nlinarith

/-- Two relative errors of size `u`, one in a factor and one in the product, leave the
product within `4 * u` of the exact one. -/
theorem product_error (u ρ r v q : ℚ) (hu0 : 0 ≤ u) (hu : u ≤ 1 / 4) (hρ : 0 < ρ)
    (hv : 0 < v) (hr : |r - ρ| ≤ u * ρ) (hq : |q - v * r| ≤ u * (v * r)) :
    |q - v * ρ| ≤ 4 * u * (v * ρ) := by
  rw [abs_le] at hr hq ⊢
  obtain ⟨hr1, hr2⟩ := hr
  obtain ⟨hq1, hq2⟩ := hq
  have hx : 0 < v * ρ := mul_pos hv hρ
  have a1 : v * r ≤ v * ρ * (1 + u) := by
    have := mul_le_mul_of_nonneg_left hr2 hv.le
    linarith
  have a2 : v * ρ * (1 - u) ≤ v * r := by
    have := mul_le_mul_of_nonneg_left hr1 hv.le
    linarith
  have b1 : v * r * (1 + u) ≤ v * ρ * (1 + u) * (1 + u) :=
    mul_le_mul_of_nonneg_right a1 (by linarith)
  have b2 : v * ρ * (1 - u) * (1 - u) ≤ v * r * (1 - u) :=
    mul_le_mul_of_nonneg_right a2 (by linarith)
  have c1 : 0 ≤ v * ρ * (u * (2 - u)) :=
    mul_nonneg hx.le (mul_nonneg hu0 (by linarith))
  have c2 : 0 ≤ v * ρ * (u * u) := mul_nonneg hx.le (mul_nonneg hu0 hu0)
  constructor
  · nlinarith
  · nlinarith

/-- The update computed on a 400 by 200 image, ratio locked, for the width 100. -/
theorem newResize_landscape_100 :
    newResize exampleUtils plainProps (landscapeStore none) ⟨DimName.width, "100"⟩ =
      sizeObj 100 50 := by
  have e0 : originalImgSizeAfterRotation exampleUtils (landscapeStore none) = ⟨400, 200⟩ := by
    decide
  have r : exampleUtils.restrictNumber "100" 1 = 100 := by decide
  have m : mathRound (50 : ℚ) = 50 := by norm_num [mathRound_eq_iff]
  rw [newResize_width_locked _ _ _ _ (by decide), e0, r]
  simp only [fdiv_400_200, fdiv_100_2, m, sizeObj]
  norm_num

/-- The update computed on a 400 by 200 image, ratio locked, for the width 101. -/
theorem newResize_landscape_101 :
    newResize exampleUtils plainProps (landscapeStore none) ⟨DimName.width, "101"⟩ =
      sizeObj 101 51 := by
  have e0 : originalImgSizeAfterRotation exampleUtils (landscapeStore none) = ⟨400, 200⟩ := by
    decide
  have r : exampleUtils.restrictNumber "101" 1 = 101 := by decide
  have m : mathRound (101 / 2 : ℚ) = 51 := by norm_num [mathRound_eq_iff]
  rw [newResize_width_locked _ _ _ _ (by decide), e0, r]
  simp only [fdiv_400_200, fdiv_101_2, m, sizeObj]
  norm_num

/-- The computed update follows the double arithmetic of the handler where the exact
quotient or product would round the other way: 1024 by 600 with the width 192 gives the
height 112 (exactly 112.5, in doubles 112.49999999999999), 1366 by 900 with the height
1125 gives the width 1707 (exactly 1707.5), 5 by 490 with the height 49 gives the width
0 (exactly 0.5). -/
theorem newResize_rounds_in_doubles :
    (newResize exampleUtils plainProps (lockedStore 1024 600) ⟨DimName.width, "192"⟩ =
        sizeObj 192 112 ∧
      mathRound (192 / (1024 / 600 : ℚ)) = 113) ∧
    (newResize exampleUtils plainProps (lockedStore 1366 900) ⟨DimName.height, "1125"⟩ =
        sizeObj 1707 1125 ∧
      mathRound (1125 * (1366 / 900 : ℚ)) = 1708) ∧
    (newResize exampleUtils plainProps (lockedStore 5 490) ⟨DimName.height, "49"⟩ =
        sizeObj 0 49 ∧
      mathRound (49 * (5 / 490 : ℚ)) = 1) := by
  have a1 : fdiv 1024 600 = 7686143364045647 * 2 ^ (0 - 52 : ℤ) := by
    exact_mod_cast fdiv_eq 1024 600 0 7686143364045647 (by norm_num)
      (by norm_num [abs_of_pos]) (by norm_num [abs_of_pos]) (by norm_num [abs_lt])
  have a2 : fdiv 192 (7686143364045647 * 2 ^ (0 - 52 : ℤ)) =
      7916483719987199 * 2 ^ (6 - 52 : ℤ) := by
    exact_mod_cast fdiv_eq 192 (7686143364045647 * 2 ^ (0 - 52 : ℤ)) 6 7916483719987199
      (by norm_num) (by norm_num [abs_of_pos]) (by norm_num [abs_of_pos])
      (by norm_num [abs_lt])
  have a3 : mathRound (7916483719987199 * 2 ^ (6 - 52 : ℤ)) = 112 := by
    norm_num [mathRound_eq_iff]
  have b1 : fdiv 1366 900 = 6835463434431219 * 2 ^ (0 - 52 : ℤ) := by
    exact_mod_cast fdiv_eq 1366 900 0 6835463434431219 (by norm_num)
      (by norm_num [abs_of_pos]) (by norm_num [abs_of_pos]) (by norm_num [abs_lt])
  have b2 : fmul 1125 (6835463434431219 * 2 ^ (0 - 52 : ℤ)) =
      7509664417710079 * 2 ^ (10 - 52 : ℤ) := by
    exact_mod_cast fmul_eq 1125 (6835463434431219 * 2 ^ (0 - 52 : ℤ)) 10 7509664417710079
      (by norm_num) (by norm_num [abs_of_pos]) (by norm_num [abs_of_pos])
      (by norm_num [abs_lt])
  have b3 : mathRound (7509664417710079 * 2 ^ (10 - 52 : ℤ)) = 1707 := by
    norm_num [mathRound_eq_iff]
  have c1 : fdiv 5 490 = 5882252574524729 * 2 ^ (-7 - 52 : ℤ) := by
    exact_mod_cast fdiv_eq 5 490 (-7) 5882252574524729 (by norm_num)
      (by norm_num [abs_of_pos]) (by norm_num [abs_of_pos]) (by norm_num [abs_lt])
  have c2 : fmul 49 (5882252574524729 * 2 ^ (-7 - 52 : ℤ)) =
      9007199254740991 * 2 ^ (-2 - 52 : ℤ) := by
    exact_mod_cast fmul_eq 49 (5882252574524729 * 2 ^ (-7 - 52 : ℤ)) (-2) 9007199254740991
      (by norm_num) (by norm_num [abs_of_pos]) (by norm_num [abs_of_pos])
      (by norm_num [abs_lt])
  have c3 : mathRound (9007199254740991 * 2 ^ (-2 - 52 : ℤ)) = 0 := by
    norm_num [mathRound_eq_iff]
  have ea : originalImgSizeAfterRotation exampleUtils (lockedStore 1024 600) = ⟨1024, 600⟩ := by
    decide
  have eb : originalImgSizeAfterRotation exampleUtils (lockedStore 1366 900) = ⟨1366, 900⟩ := by
    decide
  have ec : originalImgSizeAfterRotation exampleUtils (lockedStore 5 490) = ⟨5, 490⟩ := by
    decide
  have ra : exampleUtils.restrictNumber "192" 1 = 192 := by decide
  have rb : exampleUtils.restrictNumber "1125" 1 = 1125 := by decide
  have rc : exampleUtils.restrictNumber "49" 1 = 49 := by decide
  refine ⟨⟨?_, by norm_num [mathRound_eq_iff]⟩, ⟨?_, by norm_num [mathRound_eq_iff]⟩,
    ?_, by norm_num [mathRound_eq_iff]⟩
  · rw [newResize_width_locked _ _ _ _ (by decide), ea, ra]
    simp only [a1, a2, a3, sizeObj]
    norm_num
  · rw [newResize_height_locked _ _ _ _ (by decide), eb, rb]
    simp only [b1, b2, b3, sizeObj]
    norm_num
  · rw [newResize_height_locked _ _ _ _ (by decide), ec, rc]
    simp only [c1, c2, c3, sizeObj]
    norm_num

/-! ## The claims -/

/-- C1. While the ratio is locked and the post-rotation original size is positive, the
update computed by `changeResize` sets the edited field to `v = restrictNumber(value, 1)`
and the companion field to `Math.round(v * (W'/H'))` for a height edit and to
`Math.round(v / (W'/H'))` for a width edit, the operators being those of the handler;
every update the handler emits is that one. -/
theorem changeResize_locked_update (u : Utils) (p : Props) (s : Store) (e : Target)
    (hlock : (isRatioUnlocked p s).truthy = false)
    (hW : 0 < (originalImgSizeAfterRotation u s).width)
    (hH : 0 < (originalImgSizeAfterRotation u s).height) :
    newResize u p s e =
      (if e.name = DimName.height then
        ⟨some (JSVal.num (mathRound (fmul (u.restrictNumber e.value 1)
            (fdiv (originalImgSizeAfterRotation u s).width
              (originalImgSizeAfterRotation u s).height)))),
         some (JSVal.num (u.restrictNumber e.value 1)), none, none⟩
       else
        ⟨some (JSVal.num (u.restrictNumber e.value 1)),
         some (JSVal.num (mathRound (fdiv (u.restrictNumber e.value 1)
            (fdiv (originalImgSizeAfterRotation u s).width
              (originalImgSizeAfterRotation u s).height)))), none, none⟩) ∧
    (∀ o ∈ onChangeCalls (changeResize u p s e), o = newResize u p s e) ∧
    (∀ o, Action.SET_RESIZE o ∈ dispatched (changeResize u p s e) → o = newResize u p s e) := by
  have _hW := hW
  have _hH := hH
  refine ⟨?_, changeResize_emits_newResize u p s e⟩
  obtain ⟨name, value⟩ := e
  cases name
  · simpa using newResize_width_locked u p s value hlock
  · simpa using newResize_height_locked u p s value hlock

/-- C1, on the two examples of the specification: a 400 by 200 image, ratio locked,
width set to 100, gives height 50 unrotated and height 200 when rotated by 90 degrees
(post-rotation size 200 by 400). -/
theorem changeResize_locked_update_witness :
    ((isRatioUnlocked plainProps (landscapeStore none)).truthy = false ∧
      originalImgSizeAfterRotation exampleUtils (landscapeStore none) = ⟨400, 200⟩ ∧
      newResize exampleUtils plainProps (landscapeStore none) ⟨DimName.width, "100"⟩ =
        sizeObj 100 50) ∧
    ((isRatioUnlocked plainProps (landscapeStore (some 90))).truthy = false ∧
      originalImgSizeAfterRotation exampleUtils (landscapeStore (some 90)) = ⟨200, 400⟩ ∧
      newResize exampleUtils plainProps (landscapeStore (some 90)) ⟨DimName.width, "100"⟩ =
        sizeObj 100 200) := by
  have h0 := (changeResize_locked_update exampleUtils plainProps (landscapeStore none)
    ⟨DimName.width, "100"⟩ (by decide) (by decide) (by decide)).1
  have h90 := (changeResize_locked_update exampleUtils plainProps (landscapeStore (some 90))
    ⟨DimName.width, "100"⟩ (by decide) (by decide) (by decide)).1
  have e0 : originalImgSizeAfterRotation exampleUtils (landscapeStore none) = ⟨400, 200⟩ := by
    decide
  have e90 : originalImgSizeAfterRotation exampleUtils (landscapeStore (some 90)) =
      ⟨200, 400⟩ := by
    decide
  have r : exampleUtils.restrictNumber "100" 1 = 100 := by decide
  have m50 : mathRound (50 : ℚ) = 50 := by norm_num [mathRound_eq_iff]
  have m200 : mathRound (200 : ℚ) = 200 := by norm_num [mathRound_eq_iff]
  have d : ¬ DimName.width = DimName.height := by decide
  refine ⟨⟨by decide, e0, ?_⟩, by decide, e90, ?_⟩
  · rw [h0, e0, r]
    simp only [d, if_false, fdiv_400_200, fdiv_100_2, m50, sizeObj]
    norm_num
  · rw [h90, e90, r]
    simp only [d, if_false, fdiv_200_400, fdiv_100_half, m200, sizeObj]
    norm_num

/-- C3, as stated, fails: on a 400 by 200 image (ratio 2), ratio locked, a width of 100
yields the height 50, not `Math.round(100 * 2) = 200`. -/
theorem width_edit_height_is_not_product :
    (isRatioUnlocked plainProps (landscapeStore none)).truthy = false ∧
    (newResize exampleUtils plainProps (landscapeStore none) ⟨DimName.width, "100"⟩).get
        DimName.height = JSVal.num 50 ∧
    (newResize exampleUtils plainProps (landscapeStore none) ⟨DimName.width, "100"⟩).get
        DimName.height ≠
      JSVal.num (mathRound (fmul (exampleUtils.restrictNumber "100" 1)
        (fdiv (originalImgSizeAfterRotation exampleUtils (landscapeStore none)).width
          (originalImgSizeAfterRotation exampleUtils (landscapeStore none)).height))) := by
  have e0 : originalImgSizeAfterRotation exampleUtils (landscapeStore none) = ⟨400, 200⟩ := by
    decide
  have r : exampleUtils.restrictNumber "100" 1 = 100 := by decide
  have m200 : mathRound (200 : ℚ) = 200 := by norm_num [mathRound_eq_iff]
  refine ⟨by decide, ?_, ?_⟩
  · rw [newResize_landscape_100]
    decide
  · rw [newResize_landscape_100, e0, r]
    simp only [fdiv_400_200, fmul_100_2, m200, sizeObj, Obj.get, Obj.key, Obj.read,
      Option.getD_some]
    norm_num

/-- C3, amended. While the ratio is locked and the post-rotation original size is
positive, changing the width yields `height = Math.round(w / originalRatio)`, where
`originalRatio` is the post-rotation width divided by the post-rotation height and `w` is
the entered width raised to the minimum 1. -/
theorem changeResize_width_locked_height (u : Utils) (p : Props) (s : Store) (value : String)
    (hlock : (isRatioUnlocked p s).truthy = false)
    (hW : 0 < (originalImgSizeAfterRotation u s).width)
    (hH : 0 < (originalImgSizeAfterRotation u s).height) :
    (newResize u p s ⟨DimName.width, value⟩).get DimName.width =
      JSVal.num (u.restrictNumber value 1) ∧
    (newResize u p s ⟨DimName.width, value⟩).get DimName.height =
      JSVal.num (mathRound (fdiv (u.restrictNumber value 1)
        (fdiv (originalImgSizeAfterRotation u s).width
          (originalImgSizeAfterRotation u s).height))) ∧
    (∀ o ∈ onChangeCalls (changeResize u p s ⟨DimName.width, value⟩),
      o = newResize u p s ⟨DimName.width, value⟩) ∧
    (∀ o, Action.SET_RESIZE o ∈ dispatched (changeResize u p s ⟨DimName.width, value⟩) →
      o = newResize u p s ⟨DimName.width, value⟩) := by
  have _hW := hW
  have _hH := hH
  refine ⟨?_, ?_, changeResize_emits_newResize u p s ⟨DimName.width, value⟩⟩
  · rw [newResize_width_locked u p s value hlock]; rfl
  · rw [newResize_width_locked u p s value hlock]; rfl

/-- C3, amended, on the example of the specification: 400 by 200, width 100, height 50. -/
theorem changeResize_width_locked_height_witness :
    (isRatioUnlocked plainProps (landscapeStore none)).truthy = false ∧
    0 < (originalImgSizeAfterRotation exampleUtils (landscapeStore none)).width ∧
    0 < (originalImgSizeAfterRotation exampleUtils (landscapeStore none)).height ∧
    (newResize exampleUtils plainProps (landscapeStore none) ⟨DimName.width, "100"⟩).get
        DimName.height = JSVal.num 50 := by
  have h := (changeResize_width_locked_height exampleUtils plainProps (landscapeStore none)
    "100" (by decide) (by decide) (by decide)).2.1
  have e0 : originalImgSizeAfterRotation exampleUtils (landscapeStore none) = ⟨400, 200⟩ := by
    decide
  have r : exampleUtils.restrictNumber "100" 1 = 100 := by decide
  have m50 : mathRound (50 : ℚ) = 50 := by norm_num [mathRound_eq_iff]
  refine ⟨by decide, by decide, by decide, ?_⟩
  rw [h, e0, r]
  simp only [fdiv_400_200, fdiv_100_2, m50]
  norm_num

/-- C4, as stated, fails: on a 400 by 200 image, ratio locked, a width of 101 yields the
height 51 (`Math.round(50.5)`), and `101 * 200` is not `51 * 400`. -/
theorem locked_pair_is_not_exactly_proportional :
    (isRatioUnlocked plainProps (landscapeStore none)).truthy = false ∧
    originalImgSizeAfterRotation exampleUtils (landscapeStore none) = ⟨400, 200⟩ ∧
    changeResize exampleUtils plainProps (landscapeStore none) ⟨DimName.width, "101"⟩ =
      [Effect.dispatch (Action.SET_RESIZE (sizeObj 101 51)),
       Effect.dispatch (Action.ZOOM_CANVAS 101800)] ∧
    ¬ ∃ w h : ℚ,
      (newResize exampleUtils plainProps (landscapeStore none) ⟨DimName.width, "101"⟩).get
        DimName.width = JSVal.num w ∧
      (newResize exampleUtils plainProps (landscapeStore none) ⟨DimName.width, "101"⟩).get
        DimName.height = JSVal.num h ∧
      w * (originalImgSizeAfterRotation exampleUtils (landscapeStore none)).height =
        h * (originalImgSizeAfterRotation exampleUtils (landscapeStore none)).width := by
  have e0 : originalImgSizeAfterRotation exampleUtils (landscapeStore none) = ⟨400, 200⟩ := by
    decide
  refine ⟨by decide, e0, ?_, ?_⟩
  · have hs : sameAsStored exampleUtils plainProps (landscapeStore none)
        ⟨DimName.width, "101"⟩ = false := by
      unfold sameAsStored
      rw [newResize_landscape_101]
      decide
    unfold changeResize
    rw [hs, newResize_landscape_101]
    simp [plainProps, landscapeStore, Obj.read, JSVal.truthy, dimensUsedInFit, sizeObj,
      exampleUtils, exampleFit]
    norm_num
  · rintro ⟨w, h, hw, hh, heq⟩
    rw [newResize_landscape_101] at hw hh
    rw [e0] at heq
    simp only [sizeObj, Obj.get, Obj.key, Obj.read, Option.getD_some, JSVal.num.injEq] at hw hh
    subst hw
    subst hh
    norm_num at heq

/-- C4, amended. While the ratio is locked, with positive post-rotation original
dimensions `(W', H')`, a positive entered value and no underflow or overflow in the two
operations, the companion of the update is the integer `Math.round(q)`, `q` being the
quotient `width / (W'/H')` or the product `height * (W'/H')` as the handler computes it;
the pair has the post-rotation aspect ratio up to that rounding and the rounding of the
two operations: `|height * W' - width * H'| ≤ W'/2 + 2^-51 * width * H'` after a width
edit and `|width * H' - height * W'| ≤ H'/2 + 2^-51 * height * W'` after a height edit. -/
theorem changeResize_locked_aspect_within_rounding (u : Utils) (p : Props) (s : Store)
    (e : Target)
    (hlock : (isRatioUnlocked p s).truthy = false)
    (hW : 0 < (originalImgSizeAfterRotation u s).width)
    (hH : 0 < (originalImgSizeAfterRotation u s).height)
    (hv : 0 < u.restrictNumber e.value 1)
    (hr : normalRange ((originalImgSizeAfterRotation u s).width /
      (originalImgSizeAfterRotation u s).height))
    (hq : normalRange (if e.name = DimName.height then
        u.restrictNumber e.value 1 * fdiv (originalImgSizeAfterRotation u s).width
          (originalImgSizeAfterRotation u s).height
      else
        u.restrictNumber e.value 1 / fdiv (originalImgSizeAfterRotation u s).width
          (originalImgSizeAfterRotation u s).height)) :
    ∃ c : ℤ,
      (newResize u p s e).get e.name = JSVal.num (u.restrictNumber e.value 1) ∧
      (newResize u p s e).get (secondDimensionName e.name) = JSVal.num c ∧
      c = mathRound (if e.name = DimName.height then
          fmul (u.restrictNumber e.value 1) (fdiv (originalImgSizeAfterRotation u s).width
            (originalImgSizeAfterRotation u s).height)
        else
          fdiv (u.restrictNumber e.value 1) (fdiv (originalImgSizeAfterRotation u s).width
            (originalImgSizeAfterRotation u s).height)) ∧
      (e.name = DimName.width →
        |(c : ℚ) * (originalImgSizeAfterRotation u s).width -
            u.restrictNumber e.value 1 * (originalImgSizeAfterRotation u s).height| ≤
          (originalImgSizeAfterRotation u s).width / 2 +
            2 ^ (-51 : ℤ) *
              (u.restrictNumber e.value 1 * (originalImgSizeAfterRotation u s).height)) ∧
      (e.name = DimName.height →
        |(c : ℚ) * (originalImgSizeAfterRotation u s).height -
            u.restrictNumber e.value 1 * (originalImgSizeAfterRotation u s).width| ≤
          (originalImgSizeAfterRotation u s).height / 2 +
            2 ^ (-51 : ℤ) *
              (u.restrictNumber e.value 1 * (originalImgSizeAfterRotation u s).width)) := by
  obtain ⟨name, value⟩ := e
  have hne : ¬ DimName.width = DimName.height := by decide
  have h51 : (2 : ℚ) ^ (-51 : ℤ) = 4 * 2 ^ (-53 : ℤ) := by norm_num
  have hu0 : (0 : ℚ) ≤ 2 ^ (-53 : ℤ) := by positivity
  have hu : (2 : ℚ) ^ (-53 : ℤ) ≤ 1 / 4 := by norm_num
  have hρ : 0 < (originalImgSizeAfterRotation u s).width /
      (originalImgSizeAfterRotation u s).height := div_pos hW hH
  have hr1 := abs_fdiv_sub_le _ _ hr
  rw [abs_of_pos hρ] at hr1
  have hrpos : 0 < fdiv (originalImgSizeAfterRotation u s).width
      (originalImgSizeAfterRotation u s).height := by
    have := (abs_le.mp hr1).1
    nlinarith
  cases name
  · have hn := newResize_width_locked u p s value hlock
    simp only [hne, if_false] at hq ⊢
    have hq1 := abs_fdiv_sub_le _ _ hq
    rw [abs_of_pos (div_pos hv hrpos)] at hq1
    have hx := quotient_error _ _ _ _ _ hu0 hu hρ hv hr1 hq1
    refine ⟨_, ?_, ?_, rfl, ?_, ?_⟩
    · rw [hn]; rfl
    · rw [hn]; rfl
    · intro _
      have hm := abs_mathRound_sub_le (fdiv (u.restrictNumber value 1)
        (fdiv (originalImgSizeAfterRotation u s).width
          (originalImgSizeAfterRotation u s).height))
      rw [h51]
      simp only at hv
      generalize (mathRound (fdiv (u.restrictNumber value 1)
        (fdiv (originalImgSizeAfterRotation u s).width
          (originalImgSizeAfterRotation u s).height)) : ℚ) = c at hm ⊢
      generalize fdiv (u.restrictNumber value 1)
        (fdiv (originalImgSizeAfterRotation u s).width
          (originalImgSizeAfterRotation u s).height) = q at hm hx
      generalize u.restrictNumber value 1 = v at hv hx ⊢
      generalize (originalImgSizeAfterRotation u s).width = W at hW hx ⊢
      generalize (originalImgSizeAfterRotation u s).height = H at hH hx ⊢
      generalize (2 : ℚ) ^ (-53 : ℤ) = ε at hu0 hx ⊢
      have hxW : v / (W / H) * W = v * H := by field_simp
      have hxpos : 0 < v / (W / H) := div_pos hv (div_pos hW hH)
      generalize v / (W / H) = x at hx hxW hxpos
      have hcx : |c - x| ≤ 1 / 2 + 4 * ε * x := by
        calc |c - x| = |(c - q) + (q - x)| := by ring_nf
          _ ≤ |c - q| + |q - x| := abs_add _ _
          _ ≤ 1 / 2 + 4 * ε * x := add_le_add hm hx
      have hm2 : c * W - v * H = (c - x) * W := by rw [← hxW]; ring
      rw [hm2, abs_mul, abs_of_pos hW]
      calc |c - x| * W ≤ (1 / 2 + 4 * ε * x) * W := by gcongr
        _ = W / 2 + 4 * ε * (v * H) := by rw [← hxW]; ring
    · intro h; cases h
  · have hn := newResize_height_locked u p s value hlock
    simp only [if_true] at hq ⊢
    have hq1 := abs_fmul_sub_le _ _ hq
    rw [abs_of_pos (mul_pos hv hrpos)] at hq1
    have hx := product_error _ _ _ _ _ hu0 hu hρ hv hr1 hq1
    refine ⟨_, ?_, ?_, rfl, ?_, ?_⟩
    · rw [hn]; rfl
    · rw [hn]; rfl
    · intro h; cases h
    · intro _
      have hm := abs_mathRound_sub_le (fmul (u.restrictNumber value 1)
        (fdiv (originalImgSizeAfterRotation u s).width
          (originalImgSizeAfterRotation u s).height))
      rw [h51]
      simp only at hv
      generalize (mathRound (fmul (u.restrictNumber value 1)
        (fdiv (originalImgSizeAfterRotation u s).width
          (originalImgSizeAfterRotation u s).height)) : ℚ) = c at hm ⊢
      generalize fmul (u.restrictNumber value 1)
        (fdiv (originalImgSizeAfterRotation u s).width
          (originalImgSizeAfterRotation u s).height) = q at hm hx
      generalize u.restrictNumber value 1 = v at hv hx ⊢
      generalize (originalImgSizeAfterRotation u s).width = W at hW hx ⊢
      generalize (originalImgSizeAfterRotation u s).height = H at hH hx ⊢
      generalize (2 : ℚ) ^ (-53 : ℤ) = ε at hu0 hx ⊢
      have hxH : v * (W / H) * H = v * W := by field_simp
      generalize v * (W / H) = x at hx hxH
      have hcx : |c - x| ≤ 1 / 2 + 4 * ε * x := by
        calc |c - x| = |(c - q) + (q - x)| := by ring_nf
          _ ≤ |c - q| + |q - x| := abs_add _ _
          _ ≤ 1 / 2 + 4 * ε * x := add_le_add hm hx
      have hm2 : c * H - v * W = (c - x) * H := by rw [← hxH]; ring
      rw [hm2, abs_mul, abs_of_pos hH]
      calc |c - x| * H ≤ (1 / 2 + 4 * ε * x) * H := by gcongr
        _ = H / 2 + 4 * ε * (v * W) := by rw [← hxH]; ring

/-- C4, amended, on a 400 by 200 image with the width set to 101: the emitted height
is an integer within the bound. -/
theorem changeResize_locked_aspect_within_rounding_witness :
    ((isRatioUnlocked plainProps (landscapeStore none)).truthy = false ∧
      0 < (originalImgSizeAfterRotation exampleUtils (landscapeStore none)).width ∧
      0 < (originalImgSizeAfterRotation exampleUtils (landscapeStore none)).height ∧
      0 < exampleUtils.restrictNumber "101" 1 ∧
      normalRange ((originalImgSizeAfterRotation exampleUtils (landscapeStore none)).width /
        (originalImgSizeAfterRotation exampleUtils (landscapeStore none)).height) ∧
      normalRange (exampleUtils.restrictNumber "101" 1 /
        fdiv (originalImgSizeAfterRotation exampleUtils (landscapeStore none)).width
          (originalImgSizeAfterRotation exampleUtils (landscapeStore none)).height)) ∧
    ∃ c : ℤ,
      (newResize exampleUtils plainProps (landscapeStore none) ⟨DimName.width, "101"⟩).get
        DimName.height = JSVal.num c ∧
      |(c : ℚ) * 400 - 101 * 200| ≤ 400 / 2 + 2 ^ (-51 : ℤ) * (101 * 200) := by
  have e0 : originalImgSizeAfterRotation exampleUtils (landscapeStore none) = ⟨400, 200⟩ := by
    decide
  have r : exampleUtils.restrictNumber "101" 1 = 101 := by decide
  have hr : normalRange ((originalImgSizeAfterRotation exampleUtils (landscapeStore none)).width /
      (originalImgSizeAfterRotation exampleUtils (landscapeStore none)).height) := by
    rw [e0]
    norm_num [normalRange, abs_of_pos]
  have hq : normalRange (exampleUtils.restrictNumber "101" 1 /
      fdiv (originalImgSizeAfterRotation exampleUtils (landscapeStore none)).width
        (originalImgSizeAfterRotation exampleUtils (landscapeStore none)).height) := by
    rw [e0, r]
    simp only [fdiv_400_200]
    norm_num [normalRange, abs_of_pos]
  obtain ⟨c, _, hc, _, hwidth, _⟩ :=
    changeResize_locked_aspect_within_rounding exampleUtils plainProps (landscapeStore none)
      ⟨DimName.width, "101"⟩ (by decide) (by decide) (by decide) (by decide) hr hq
  have hb := hwidth rfl
  rw [e0] at hb
  simp only [r] at hb
  exact ⟨⟨by decide, by decide, by decide, by decide, hr, hq⟩, c, hc, hb⟩

/-- C9, evaluated where the code departs from it. On a 400 by 100 image, ratio locked,
the entered width 0 is raised to 1 and the recomputed height is `Math.round(1 / 4) = 0`,
which is dispatched: a dimension of the emitted update is below 1. -/
theorem companion_dimension_can_be_zero :
    1 ≤ exampleUtils.restrictNumber "0" 1 ∧
    originalImgSizeAfterRotation exampleUtils wideStore = ⟨400, 100⟩ ∧
    changeResize exampleUtils plainProps wideStore ⟨DimName.width, "0"⟩ =
      [Effect.dispatch (Action.SET_RESIZE (sizeObj 1 0)),
       Effect.dispatch (Action.ZOOM_CANVAS 1800)] ∧
    ¬ ∀ (n : DimName) (q : ℚ),
      (newResize exampleUtils plainProps wideStore ⟨DimName.width, "0"⟩).key n =
        some (JSVal.num q) → 1 ≤ q := by
  have e0 : originalImgSizeAfterRotation exampleUtils wideStore = ⟨400, 100⟩ := by decide
  have r : exampleUtils.restrictNumber "0" 1 = 1 := by decide
  have m : mathRound (1 / 4 : ℚ) = 0 := by norm_num [mathRound_eq_iff]
  have n0 : newResize exampleUtils plainProps wideStore ⟨DimName.width, "0"⟩ =
      sizeObj 1 0 := by
    rw [newResize_width_locked _ _ _ _ (by decide), e0, r]
    simp only [fdiv_400_100, fdiv_1_4, m, sizeObj]
    norm_num
  refine ⟨by decide, e0, ?_, ?_⟩
  · have hs : sameAsStored exampleUtils plainProps wideStore ⟨DimName.width, "0"⟩ = false := by
      unfold sameAsStored
      rw [n0]
      decide
    unfold changeResize
    rw [hs, n0]
    simp [plainProps, wideStore, Obj.read, JSVal.truthy, dimensUsedInFit, sizeObj,
      exampleUtils, exampleFit]
    norm_num
  · intro hall
    have h := hall DimName.height 0 (by rw [n0]; rfl)
    norm_num at h

/-- While the ratio is locked, the no-op test does what the specification says: if
merging the computed update would leave the stored width and height as they are,
`changeResize` emits nothing. -/
theorem changeResize_locked_noop (u : Utils) (p : Props) (s : Store) (e : Target)
    (hlock : (isRatioUnlocked p s).truthy = false)
    (hw : (mergeResize s.resize (newResize u p s e)).width = s.resize.width)
    (hh : (mergeResize s.resize (newResize u p s e)).height = s.resize.height) :
    changeResize u p s e = [] := by
  obtain ⟨name, value⟩ := e
  cases name
  · rw [newResize_width_locked u p s value hlock] at hw hh
    simp only [mergeResize, Obj.spreadKey] at hw hh
    unfold changeResize sameAsStored
    rw [newResize_width_locked u p s value hlock]
    simp [Obj.get, Obj.key, Obj.read, ← hw, ← hh, JSVal.strictEq, secondDimensionName]
  · rw [newResize_height_locked u p s value hlock] at hw hh
    simp only [mergeResize, Obj.spreadKey] at hw hh
    unfold changeResize sameAsStored
    rw [newResize_height_locked u p s value hlock]
    simp [Obj.get, Obj.key, Obj.read, ← hw, ← hh, JSVal.strictEq, secondDimensionName]

/-- C2, evaluated where the code departs from it. With the ratio unlocked and no
callback, setting the width to 100 on a stored 80 by 50 dispatches `SET_RESIZE` with
`{width: 100}`; the merge gives the stored pair 100 by 50; the same edit on that state
would leave the stored width and height unchanged, and is dispatched again. -/
theorem changeResize_unlocked_repeat_emits :
    changeResize exampleUtils plainProps (unlockedStore 80) ⟨DimName.width, "100"⟩ =
      [Effect.dispatch (Action.SET_RESIZE ⟨some (JSVal.num 100), none, none, none⟩)] ∧
    mergeResize (unlockedStore 80).resize ⟨some (JSVal.num 100), none, none, none⟩ =
      (unlockedStore 100).resize ∧
    mergeResize (unlockedStore 100).resize
        (newResize exampleUtils plainProps (unlockedStore 100) ⟨DimName.width, "100"⟩) =
      (unlockedStore 100).resize ∧
    changeResize exampleUtils plainProps (unlockedStore 100) ⟨DimName.width, "100"⟩ =
      [Effect.dispatch (Action.SET_RESIZE ⟨some (JSVal.num 100), none, none, none⟩)] := by
  refine ⟨by decide, by decide, by decide, by decide⟩

/-- The fitted dimensions are the crop object exactly when both crop sides are truthy. -/
theorem dimensUsedInFit_num (img : ImageSize) (r shown : Obj) (w h : ℚ)
    (a b : Option JSVal) (rot : Option ℚ) :
    dimensUsedInFit ⟨img, r, shown, ⟨some (JSVal.num w), some (JSVal.num h), a, b⟩, rot⟩ =
      if w ≠ 0 ∧ h ≠ 0 then ⟨some (JSVal.num w), some (JSVal.num h), a, b⟩ else shown := by
  by_cases hw : w = 0 <;> by_cases hh : h = 0 <;>
    simp [dimensUsedInFit, Obj.read, JSVal.truthy, hw, hh]

/-- C5. Whatever the store and the props (callback or not), `resetResize` dispatches
`SET_RESIZE` with the payload `{width: null, height: null, ratioUnlocked: false}` first
and never calls `onChange`; merging that payload into the resize state sets width and
height to `null` and `ratioUnlocked` to `false` and leaves `manualChangeDisabled` as it
was. -/
theorem resetResize_first_action (u : Utils) (p : Props) (s : Store) :
    (resetResize u p s).head? =
      some (Effect.dispatch (Action.SET_RESIZE
        ⟨some JSVal.null, some JSVal.null, some (JSVal.bool false), none⟩)) ∧
    (dispatched (resetResize u p s)).head? =
      some (Action.SET_RESIZE
        ⟨some JSVal.null, some JSVal.null, some (JSVal.bool false), none⟩) ∧
    onChangeCalls (resetResize u p s) = [] ∧
    mergeResize s.resize ⟨some JSVal.null, some JSVal.null, some (JSVal.bool false), none⟩ =
      ⟨some JSVal.null, some JSVal.null, some (JSVal.bool false),
        s.resize.manualChangeDisabled⟩ := by
  refine ⟨rfl, rfl, rfl, rfl⟩

/-- For a value that is not a negative number, truthiness is the test `> 0`. -/
theorem truthy_eq_gtZero (a : JSVal) (h : a.isNegative = false) : a.truthy = a.gtZero := by
  cases a with
  | undefined => rfl
  | null => rfl
  | bool b => rfl
  | num q =>
    simp only [JSVal.isNegative, decide_eq_false_iff_not, not_lt] at h
    simp only [JSVal.truthy, JSVal.gtZero, decide_eq_decide]
    exact ⟨fun hne => lt_of_le_of_ne h (Ne.symm hne), fun hlt => ne_of_gt hlt⟩

/-- C6. For every store state whose crop sides are not negative numbers, `resetResize`
dispatches, after `SET_RESIZE`, exactly one `ZOOM_CANVAS` whose factor is
`getZoomFitFactor(d, d)`, where `d` is the crop object when `crop.width > 0` and
`crop.height > 0`, and the shown image dimensions in every other case. -/
theorem resetResize_zoom_fit (u : Utils) (p : Props) (s : Store)
    (hw : (Obj.read s.crop.width).isNegative = false)
    (hh : (Obj.read s.crop.height).isNegative = false) :
    resetResize u p s =
      [Effect.dispatch (Action.SET_RESIZE
        ⟨some JSVal.null, some JSVal.null, some (JSVal.bool false), none⟩),
       Effect.dispatch (Action.ZOOM_CANVAS
        (u.getZoomFitFactor (specDimensUsedInFit s) (specDimensUsedInFit s)))] ∧
    specDimensUsedInFit s =
      (if (Obj.read s.crop.width).gtZero = true ∧ (Obj.read s.crop.height).gtZero = true
        then s.crop else s.shownImageDimensions) := by
  have hd : dimensUsedInFit s = specDimensUsedInFit s := by
    unfold dimensUsedInFit specDimensUsedInFit
    rw [truthy_eq_gtZero _ hw, truthy_eq_gtZero _ hh]
  refine ⟨?_, ?_⟩
  · unfold resetResize
    rw [hd]
  · simp [specDimensUsedInFit]

/-- C6, on a store with a 300 by 150 crop: the fit is against the crop object. -/
theorem resetResize_zoom_fit_witness :
    ((Obj.read croppedStore.crop.width).isNegative = false ∧
      (Obj.read croppedStore.crop.height).isNegative = false) ∧
    resetResize exampleUtils plainProps croppedStore =
      [Effect.dispatch (Action.SET_RESIZE
        ⟨some JSVal.null, some JSVal.null, some (JSVal.bool false), none⟩),
       Effect.dispatch (Action.ZOOM_CANVAS
        (exampleUtils.getZoomFitFactor croppedStore.crop croppedStore.crop))] := by
  have h := (resetResize_zoom_fit exampleUtils plainProps croppedStore (by decide)
    (by decide)).1
  have hs : specDimensUsedInFit croppedStore = croppedStore.crop := by decide
  rw [hs] at h
  exact ⟨⟨by decide, by decide⟩, h⟩

/-- C7. `changeResize` dispatches `ZOOM_CANVAS` if and only if no callback is supplied,
the no-op test does not suppress the edit, and the stored width or height is falsy (for a
stored number or `null`: `null` or 0); it then comes second, after `SET_RESIZE` with the
new update, with the factor `getZoomFitFactor(d, newResize)`, `d` being the crop object
when both crop sides are non-zero and the shown image dimensions otherwise. When both
stored sides are set, `SET_RESIZE` is the only action dispatched. -/
theorem changeResize_zoom_canvas (u : Utils) (p : Props) (s : Store) (e : Target) :
    ((∃ f, Action.ZOOM_CANVAS f ∈ dispatched (changeResize u p s e)) ↔
      (p.onChange = false ∧ sameAsStored u p s e = false ∧
        ((Obj.read s.resize.width).truthy = false ∨
          (Obj.read s.resize.height).truthy = false))) ∧
    ((∃ f, Action.ZOOM_CANVAS f ∈ dispatched (changeResize u p s e)) →
      changeResize u p s e =
        [Effect.dispatch (Action.SET_RESIZE (newResize u p s e)),
         Effect.dispatch (Action.ZOOM_CANVAS
           (u.getZoomFitFactor (dimensUsedInFit s) (newResize u p s e)))]) ∧
    (((Obj.read s.resize.width).truthy = true ∧ (Obj.read s.resize.height).truthy = true) →
      (dispatched (changeResize u p s e) = [] ∨
        dispatched (changeResize u p s e) = [Action.SET_RESIZE (newResize u p s e)]) ∧
      ((p.onChange = false ∧ sameAsStored u p s e = false) →
        changeResize u p s e = [Effect.dispatch (Action.SET_RESIZE (newResize u p s e))])) ∧
    (JSVal.null.truthy = false ∧ ∀ q : ℚ, (JSVal.num q).truthy = false ↔ q = 0) ∧
    (∀ (w h : ℚ) (a b : Option JSVal),
      s.crop = ⟨some (JSVal.num w), some (JSVal.num h), a, b⟩ →
      dimensUsedInFit s = if w ≠ 0 ∧ h ≠ 0 then s.crop else s.shownImageDimensions) := by
  refine ⟨?_, ?_, ?_, ⟨rfl, fun q => by simp [JSVal.truthy]⟩, ?_⟩
  · unfold changeResize
    cases hs : sameAsStored u p s e <;> cases hc : p.onChange <;>
      cases hw : (Obj.read s.resize.width).truthy <;>
      cases hh : (Obj.read s.resize.height).truthy <;>
      simp [dispatched]
  · unfold changeResize
    cases hs : sameAsStored u p s e <;> cases hc : p.onChange <;>
      cases hw : (Obj.read s.resize.width).truthy <;>
      cases hh : (Obj.read s.resize.height).truthy <;>
      simp [dispatched]
  · rintro ⟨hw, hh⟩
    unfold changeResize
    cases hs : sameAsStored u p s e <;> cases hc : p.onChange <;>
      simp [dispatched, hw, hh]
  · intro w h a b hcrop
    obtain ⟨img, r, shown, crop, rot⟩ := s
    simp only at hcrop
    subst hcrop
    exact dimensUsedInFit_num img r shown w h a b rot

/-- C7, on a 400 by 200 image with nothing resized yet and no callback: setting the
width to 100 dispatches `SET_RESIZE` and then `ZOOM_CANVAS`. -/
theorem changeResize_zoom_canvas_witness :
    (plainProps.onChange = false ∧
      sameAsStored exampleUtils plainProps (landscapeStore none) ⟨DimName.width, "100"⟩ = false ∧
      (Obj.read (landscapeStore none).resize.width).truthy = false) ∧
    changeResize exampleUtils plainProps (landscapeStore none) ⟨DimName.width, "100"⟩ =
      [Effect.dispatch (Action.SET_RESIZE
        (newResize exampleUtils plainProps (landscapeStore none) ⟨DimName.width, "100"⟩)),
       Effect.dispatch (Action.ZOOM_CANVAS
        (exampleUtils.getZoomFitFactor (dimensUsedInFit (landscapeStore none))
          (newResize exampleUtils plainProps (landscapeStore none)
            ⟨DimName.width, "100"⟩)))] := by
  have hs : sameAsStored exampleUtils plainProps (landscapeStore none)
      ⟨DimName.width, "100"⟩ = false := by
    unfold sameAsStored
    rw [newResize_width_locked _ _ _ _ (by decide)]
    simp [Obj.get, Obj.key, Obj.read, landscapeStore, JSVal.strictEq]
  have h := changeResize_zoom_canvas exampleUtils plainProps (landscapeStore none)
    ⟨DimName.width, "100"⟩
  exact ⟨⟨by decide, hs, by decide⟩, h.2.1 (h.1.mpr ⟨by decide, hs, Or.inl (by decide)⟩)⟩

/-- C8. `toggleRatioLock` emits exactly one update, whose only key is `ratioUnlocked`:
with a callback it calls `onChange({ratioUnlocked: !currentSize.ratioUnlocked})` and
dispatches nothing; without one it dispatches `SET_RESIZE` with
`{ratioUnlocked: !resize.ratioUnlocked}` and nothing else, and the merged resize state has
`ratioUnlocked` negated and width, height and `manualChangeDisabled` unchanged. -/
theorem toggleRatioLock_effect (cur : Obj) (s : Store) :
    toggleRatioLock ⟨true, cur⟩ s =
      [Effect.onChange
        ⟨none, none, some (JSVal.bool (!(Obj.read cur.ratioUnlocked).truthy)), none⟩] ∧
    dispatched (toggleRatioLock ⟨true, cur⟩ s) = [] ∧
    toggleRatioLock ⟨false, cur⟩ s =
      [Effect.dispatch (Action.SET_RESIZE
        ⟨none, none, some (JSVal.bool (!(Obj.read s.resize.ratioUnlocked).truthy)), none⟩)] ∧
    onChangeCalls (toggleRatioLock ⟨false, cur⟩ s) = [] ∧
    mergeResize s.resize
        ⟨none, none, some (JSVal.bool (!(Obj.read s.resize.ratioUnlocked).truthy)), none⟩ =
      ⟨s.resize.width, s.resize.height,
        some (JSVal.bool (!(Obj.read s.resize.ratioUnlocked).truthy)),
        s.resize.manualChangeDisabled⟩ ∧
    (∀ (c : Bool) (f : ℚ), Action.ZOOM_CANVAS f ∉ dispatched (toggleRatioLock ⟨c, cur⟩ s)) := by
  refine ⟨rfl, rfl, rfl, rfl, rfl, ?_⟩
  intro c f
  cases c <;> simp [toggleRatioLock, dispatched]

/-- Outside the one combination `currentSize.ratioUnlocked = false`,
`resize.ratioUnlocked = true`, the icon and `changeResize` read the lock alike. -/
theorem showsUnlockIcon_agrees (c : Option Bool) (r : Bool) (onChange : Bool)
    (cw ch cm rw rh rm : Option JSVal) (img : ImageSize) (shown crop : Obj) (rot : Option ℚ)
    (h : ¬ (c = some false ∧ r = true)) :
    showsUnlockIcon ⟨onChange, ⟨cw, ch, c.map JSVal.bool, cm⟩⟩
        ⟨img, ⟨rw, rh, some (JSVal.bool r), rm⟩, shown, crop, rot⟩ =
      (isRatioUnlocked ⟨onChange, ⟨cw, ch, c.map JSVal.bool, cm⟩⟩
        ⟨img, ⟨rw, rh, some (JSVal.bool r), rm⟩, shown, crop, rot⟩).truthy := by
  rcases c with _ | c
  · cases r <;> rfl
  · cases c <;> cases r <;> first | rfl | exact absurd ⟨rfl, rfl⟩ h

/-- C10, evaluated where the code departs from it. With `currentSize.ratioUnlocked =
false` and `resize.ratioUnlocked = true` the control shows the unlocked icon
(`false || true`), while `changeResize` treats the ratio as locked (`false ?? true`) and
recomputes the companion dimension. -/
theorem unlock_icon_shown_while_locked :
    showsUnlockIcon lockedOverrideProps (unlockedStore 100) = true ∧
    (isRatioUnlocked lockedOverrideProps (unlockedStore 100)).truthy = false ∧
    changeResize exampleUtils lockedOverrideProps (unlockedStore 100) ⟨DimName.width, "101"⟩ =
      [Effect.onChange (sizeObj 101 51)] := by
  have e0 : originalImgSizeAfterRotation exampleUtils (unlockedStore 100) = ⟨400, 200⟩ := by
    decide
  have r : exampleUtils.restrictNumber "101" 1 = 101 := by decide
  have m : mathRound (101 / 2 : ℚ) = 51 := by norm_num [mathRound_eq_iff]
  have n0 : newResize exampleUtils lockedOverrideProps (unlockedStore 100)
      ⟨DimName.width, "101"⟩ = sizeObj 101 51 := by
    rw [newResize_width_locked _ _ _ _ (by decide), e0, r]
    simp only [fdiv_400_200, fdiv_101_2, m, sizeObj]
    norm_num
  refine ⟨by decide, by decide, ?_⟩
  have hs : sameAsStored exampleUtils lockedOverrideProps (unlockedStore 100)
      ⟨DimName.width, "101"⟩ = false := by
    unfold sameAsStored
    rw [n0]
    decide
  unfold changeResize
  rw [hs, n0]
  decide

end Resize
